import Mathlib

/-!
Shallow embedding of `dl-classifier/scripts/pt.py`: a command-line script that
fine-tunes a pretrained torchvision image classifier.  Pure functions of the
script are translated to Lean functions; fallible Python code (attribute and
index errors, model loading) is translated to `Except String`; the training
loop state (best accuracy, best weight snapshot) is an explicit fold over the
epoch sequence.  Tensors, weights and devices are not modelled: only module
structure (layer shapes), control flow and the arithmetic of the reported
metrics, which is what the claims are about.
-/

namespace PT

/-- `get_input_size` from pt.py (lines 32-40): all models require an
input size of 224 except Inception v3, which requires 299. -/
def get_input_size (model_type : String) : Nat :=
  if model_type = "inception_v3" then 299 else 224

/-- `determine_inception` from pt.py (lines 43-49). -/
def determine_inception (model_type : String) : Bool :=
  if model_type = "inception_v3" then true else false

/-- Seed resolution from `__main__` (pt.py line 641):
`seed = args.seed if args.seed > 0 else get_ms_past_epoch()`.
The current time in milliseconds past epoch is passed in as `ms_past_epoch`. -/
def resolve_seed (arg_seed : Int) (ms_past_epoch : Int) : Int :=
  if arg_seed > 0 then arg_seed else ms_past_epoch

/-! ### Module-structure model of torchvision networks

A torch layer, as far as head replacement is concerned.  `linear` carries
`in_features`/`out_features`; `conv2d` carries channels, kernel and stride. -/

inductive TorchLayer where
  | linear (inFeatures outFeatures : Nat)
  | conv2d (inChannels outChannels : Nat) (kernel stride : Nat × Nat)
  | dropout
  | relu
  | adaptiveAvgPool
deriving DecidableEq, Repr

/-- A Python attribute that pt.py touches on a model: either an
`nn.Sequential` (indexable) or a single layer (e.g. DenseNet `classifier`). -/
inductive TorchAttr where
  | seq (layers : List TorchLayer)
  | single (layer : TorchLayer)
deriving DecidableEq, Repr

/-- The attributes of a torchvision model that `create_model` reads or writes.
`none` means the Python object has no such attribute, so accessing it raises
`AttributeError`. -/
structure TVModel where
  fc : Option TorchLayer
  classifier : Option TorchAttr
  auxLogits_fc : Option TorchLayer
deriving DecidableEq, Repr

/-- A torchvision network whose classification head is the attribute `fc`
(an `nn.Linear` with the given `in_features` and 1000 ImageNet classes):
the ResNet family including ResNeXt and wide ResNet, GoogLeNet and
ShuffleNetV2.  These models have no `classifier` attribute. -/
def fcHeadBase (inFeatures : Nat) : TVModel :=
  ⟨some (.linear inFeatures 1000), none, none⟩

/-- torchvision AlexNet: `classifier` is a 7-element `nn.Sequential`
whose index 6 is `nn.Linear(4096, 1000)`. -/
def alexnetBase : TVModel :=
  ⟨none, some (.seq [.dropout, .linear 9216 4096, .relu, .dropout,
                     .linear 4096 4096, .relu, .linear 4096 1000]), none⟩

/-- torchvision VGG (all variants): `classifier` is a 7-element
`nn.Sequential` whose index 6 is `nn.Linear(4096, 1000)`. -/
def vggBase : TVModel :=
  ⟨none, some (.seq [.linear 25088 4096, .relu, .dropout,
                     .linear 4096 4096, .relu, .dropout, .linear 4096 1000]), none⟩

/-- torchvision SqueezeNet: `classifier` is an `nn.Sequential` whose index 1
is `nn.Conv2d(512, 1000, kernel_size=(1,1), stride=(1,1))`. -/
def squeezenetBase : TVModel :=
  ⟨none, some (.seq [.dropout, .conv2d 512 1000 (1, 1) (1, 1),
                     .relu, .adaptiveAvgPool]), none⟩

/-- torchvision DenseNet: `classifier` is a single `nn.Linear`. -/
def densenetBase (inFeatures : Nat) : TVModel :=
  ⟨none, some (.single (.linear inFeatures 1000)), none⟩

/-- torchvision MobileNetV2 / MNASNet: `classifier` is an `nn.Sequential`
`[Dropout, Linear(inFeatures, 1000)]`, head at index 1. -/
def seqLinearHeadBase (inFeatures : Nat) : TVModel :=
  ⟨none, some (.seq [.dropout, .linear inFeatures 1000]), none⟩

/-- torchvision Inception v3: head `fc = nn.Linear(2048, 1000)` and auxiliary
head `AuxLogits.fc = nn.Linear(768, 1000)`. -/
def inceptionBase : TVModel :=
  ⟨some (.linear 2048 1000), none, some (.linear 768 1000)⟩

/-! ### Python attribute and index access, as `Except` -/

/-- Read `model.fc`; `AttributeError` if absent. -/
def getattr_fc (m : TVModel) : Except String TorchLayer :=
  match m.fc with
  | some l => .ok l
  | none => .error "AttributeError: fc"

/-- Read `model.classifier`; `AttributeError` if absent. -/
def getattr_classifier (m : TVModel) : Except String TorchAttr :=
  match m.classifier with
  | some a => .ok a
  | none => .error "AttributeError: classifier"

/-- Read `layer.in_features`; only `nn.Linear` has it. -/
def layer_in_features (l : TorchLayer) : Except String Nat :=
  match l with
  | .linear i _ => .ok i
  | _ => .error "AttributeError: in_features"

/-- Read `attr[i]` on a classifier attribute. -/
def attr_get (a : TorchAttr) (i : Nat) : Except String TorchLayer :=
  match a with
  | .seq ls =>
    match ls[i]? with
    | some l => .ok l
    | none => .error "IndexError"
  | .single _ => .error "TypeError: not subscriptable"

/-- Write `attr[i] = l` on a classifier attribute. -/
def attr_set (a : TorchAttr) (i : Nat) (l : TorchLayer) : Except String TorchAttr :=
  match a with
  | .seq ls => if i < ls.length then .ok (.seq (ls.set i l)) else .error "IndexError"
  | .single _ => .error "TypeError: not subscriptable"

/-! ### Head-replacement statements of `create_model` -/

/-- `model.fc = nn.Linear(model.fc.in_features, num_classes)`. -/
def replace_fc (m : TVModel) (num_classes : Nat) : Except String TVModel := do
  let f ← getattr_fc m
  let i ← layer_in_features f
  .ok { m with fc := some (.linear i num_classes) }

/-- `model.classifier[idx] = nn.Linear(model.classifier[idx].in_features, num_classes)`. -/
def replace_classifier_at (m : TVModel) (idx num_classes : Nat) :
    Except String TVModel := do
  let c ← getattr_classifier m
  let l ← attr_get c idx
  let i ← layer_in_features l
  let c2 ← attr_set c idx (.linear i num_classes)
  .ok { m with classifier := some c2 }

/-- `model.classifier[idx] = layer` for a literally constructed layer
(AlexNet uses `nn.Linear(4096, n)`, SqueezeNet a fresh `nn.Conv2d`). -/
def set_classifier_at (m : TVModel) (idx : Nat) (l : TorchLayer) :
    Except String TVModel := do
  let c ← getattr_classifier m
  let c2 ← attr_set c idx l
  .ok { m with classifier := some c2 }

/-- `model.classifier = nn.Linear(model.classifier.in_features, num_classes)`
(DenseNet: `classifier` is a single `nn.Linear`). -/
def replace_classifier_linear (m : TVModel) (num_classes : Nat) :
    Except String TVModel := do
  let c ← getattr_classifier m
  let l ← (match c with
           | .single l => Except.ok l
           | .seq _ => Except.error "AttributeError: in_features")
  let i ← layer_in_features l
  .ok { m with classifier := some (.single (.linear i num_classes)) }

/-- `model.AuxLogits.fc = nn.Linear(model.AuxLogits.fc.in_features, num_classes)`. -/
def replace_aux_fc (m : TVModel) (num_classes : Nat) : Except String TVModel := do
  let a ← (match m.auxLogits_fc with
           | some l => Except.ok l
           | none => Except.error "AttributeError: AuxLogits")
  let i ← layer_in_features a
  .ok { m with auxLogits_fc := some (.linear i num_classes) }

/-- `create_model` from pt.py (lines 65-202).  Each branch constructs the
torchvision base network and replaces its classification head exactly as the
Python does.  `set_parameter_requires_grad` only toggles `requires_grad`
flags, which do not affect module structure, so `feature_extract` and
`pretrained` do not change the result here; they are kept for the signature.
Note the `resnext50_32x4d` branch: the Python reads `model.classifier[1]`
although a ResNeXt (torchvision ResNet class) has no `classifier` attribute. -/
def create_model (model_type : String) (num_classes : Nat)
    (feature_extract pretrained : Bool) : Except String TVModel :=
  if model_type = "resnet18" then replace_fc (fcHeadBase 512) num_classes
  else if model_type = "resnet34" then replace_fc (fcHeadBase 512) num_classes
  else if model_type = "resnet50" then replace_fc (fcHeadBase 2048) num_classes
  else if model_type = "resnet101" then replace_fc (fcHeadBase 2048) num_classes
  else if model_type = "resnet152" then replace_fc (fcHeadBase 2048) num_classes
  else if model_type = "alexnet" then
    set_classifier_at alexnetBase 6 (.linear 4096 num_classes)
  else if model_type = "vgg11" then replace_classifier_at vggBase 6 num_classes
  else if model_type = "vgg11_bn" then replace_classifier_at vggBase 6 num_classes
  else if model_type = "vgg13" then replace_classifier_at vggBase 6 num_classes
  else if model_type = "vgg13_bn" then replace_classifier_at vggBase 6 num_classes
  else if model_type = "vgg16" then replace_classifier_at vggBase 6 num_classes
  else if model_type = "vgg16_bn" then replace_classifier_at vggBase 6 num_classes
  else if model_type = "vgg19" then replace_classifier_at vggBase 6 num_classes
  else if model_type = "vgg19_bn" then replace_classifier_at vggBase 6 num_classes
  else if model_type = "squeezenet1_0" then
    set_classifier_at squeezenetBase 1 (.conv2d 512 num_classes (1, 1) (1, 1))
  else if model_type = "squeezenet1_1" then
    set_classifier_at squeezenetBase 1 (.conv2d 512 num_classes (1, 1) (1, 1))
  else if model_type = "densenet121" then
    replace_classifier_linear (densenetBase 1024) num_classes
  else if model_type = "densenet161" then
    replace_classifier_linear (densenetBase 2208) num_classes
  else if model_type = "densenet169" then
    replace_classifier_linear (densenetBase 1664) num_classes
  else if model_type = "densenet201" then
    replace_classifier_linear (densenetBase 1920) num_classes
  else if model_type = "googlenet" then replace_fc (fcHeadBase 1024) num_classes
  else if model_type = "shufflenet_v2_x0_5" then
    replace_fc (fcHeadBase 1024) num_classes
  else if model_type = "shufflenet_v2_x1_0" then
    replace_fc (fcHeadBase 1024) num_classes
  else if model_type = "mobilenet_v2" then
    replace_classifier_at (seqLinearHeadBase 1280) 1 num_classes
  else if model_type = "resnext50_32x4d" then
    replace_classifier_at (fcHeadBase 2048) 1 num_classes
  else if model_type = "resnext101_32x8d" then
    replace_fc (fcHeadBase 2048) num_classes
  else if model_type = "wide_resnet50_2" then replace_fc (fcHeadBase 2048) num_classes
  else if model_type = "wide_resnet101_2" then replace_fc (fcHeadBase 2048) num_classes
  else if model_type = "mnasnet0_5" then
    replace_classifier_at (seqLinearHeadBase 1280) 1 num_classes
  else if model_type = "mnasnet1_0" then
    replace_classifier_at (seqLinearHeadBase 1280) 1 num_classes
  else
    (replace_aux_fc inceptionBase num_classes).bind
      (fun m => replace_fc m num_classes)

/-- The architecture names enumerated by `create_model` (the 29 explicit
branches) together with `inception_v3`, which the CLI help names and the
final `else` branch constructs. -/
def supportedModels : List String :=
  ["resnet18", "resnet34", "resnet50", "resnet101", "resnet152",
   "alexnet",
   "vgg11", "vgg11_bn", "vgg13", "vgg13_bn", "vgg16", "vgg16_bn",
   "vgg19", "vgg19_bn",
   "squeezenet1_0", "squeezenet1_1",
   "densenet121", "densenet161", "densenet169", "densenet201",
   "googlenet",
   "shufflenet_v2_x0_5", "shufflenet_v2_x1_0",
   "mobilenet_v2",
   "resnext50_32x4d", "resnext101_32x8d",
   "wide_resnet50_2", "wide_resnet101_2",
   "mnasnet0_5", "mnasnet1_0",
   "inception_v3"]

/-- Output width of a layer: `out_features` for `nn.Linear`,
`out_channels` for `nn.Conv2d`. -/
def layer_out_width (l : TorchLayer) : Option Nat :=
  match l with
  | .linear _ o => some o
  | .conv2d _ o _ _ => some o
  | _ => none

/-- The output width of the final classification layer at the location where
each torchvision architecture actually keeps its head: `fc` for the ResNet
family (including both ResNeXt variants), GoogLeNet, ShuffleNetV2, wide
ResNet and Inception v3; `classifier[6]` for AlexNet and VGG;
`classifier[1]` for SqueezeNet, MobileNetV2 and MNASNet; the single
`classifier` linear for DenseNet. -/
def head_out_width (model_type : String) (m : TVModel) : Option Nat :=
  if model_type = "alexnet" ∨ model_type = "vgg11" ∨ model_type = "vgg11_bn" ∨
     model_type = "vgg13" ∨ model_type = "vgg13_bn" ∨ model_type = "vgg16" ∨
     model_type = "vgg16_bn" ∨ model_type = "vgg19" ∨ model_type = "vgg19_bn" then
    match m.classifier with
    | some (.seq ls) => (ls[6]?).bind layer_out_width
    | _ => none
  else if model_type = "squeezenet1_0" ∨ model_type = "squeezenet1_1" ∨
          model_type = "mobilenet_v2" ∨ model_type = "mnasnet0_5" ∨
          model_type = "mnasnet1_0" then
    match m.classifier with
    | some (.seq ls) => (ls[1]?).bind layer_out_width
    | _ => none
  else if model_type = "densenet121" ∨ model_type = "densenet161" ∨
          model_type = "densenet169" ∨ model_type = "densenet201" then
    match m.classifier with
    | some (.single l) => layer_out_width l
    | _ => none
  else
    (m.fc).bind layer_out_width

/-! ### Model loading (`load_model`, `get_model`, pt.py lines 371-407) -/

/-- Python `str.isspace` on the characters `str.strip()` removes by
default: space, tab, newline, carriage return, vertical tab, form feed. -/
def py_is_space (c : Char) : Bool :=
  (c == ' ') || (c == '\t') || (c == '\n') || (c == '\r') ||
  (c == '\x0b') || (c == '\x0c')

/-- Drop leading whitespace characters. -/
def py_lstrip_chars : List Char → List Char
  | [] => []
  | c :: cs => if py_is_space c then py_lstrip_chars cs else c :: cs

/-- Python `str.strip()` with no arguments: remove leading and trailing
whitespace. -/
def py_strip (s : String) : String :=
  ⟨(py_lstrip_chars ((py_lstrip_chars s.data).reverse)).reverse⟩

/-- `load_model` from pt.py: builds a fresh architecture with
`pretrained=False`, then restores weights from disk.  The effect of
`torch.load` plus `load_state_dict` is abstracted as `load_weights`, which
may fail (missing file, shape mismatch, corruption). -/
def load_model (model_type : String) (num_classes : Nat) (feature_extract : Bool)
    (load_weights : TVModel → Except String TVModel) : Except String TVModel :=
  (create_model model_type num_classes feature_extract false).bind load_weights

/-- `get_model` from pt.py (lines 385-407).  The Python `try`/`except`
around `load_model` is a match on the `Except` outcome: any load failure
falls back to `create_model` with the requested `pretrained` and
`feature_extract` settings. -/
def get_model (model_type : String) (num_classes : Nat)
    (feature_extract pretrained : Bool) (model_path : Option String)
    (load_weights : TVModel → Except String TVModel) : Except String TVModel :=
  match model_path with
  | none => create_model model_type num_classes feature_extract pretrained
  | some p =>
    if (py_strip p).length = 0 then
      create_model model_type num_classes feature_extract pretrained
    else
      match load_model model_type num_classes feature_extract load_weights with
      | .ok m => .ok m
      | .error _ => create_model model_type num_classes feature_extract pretrained

/-! ### Training loop: best-snapshot selection (pt.py lines 276-345)

`best_acc` starts at `0.0` and `best_model_wts` at the weights the model had
before training.  After the test phase of each epoch, the snapshot is
replaced iff `epoch_acc > best_acc`; at the end, the best snapshot is loaded
back into the model.  An epoch is modelled as its test accuracy (a rational)
paired with the weight snapshot the model holds at the end of that epoch. -/

/-- One best-snapshot update (pt.py lines 330-333):
`if phase == test and epoch_acc > best_acc: best_acc = epoch_acc;
best_model_wts = deepcopy(model.state_dict())`. -/
def best_update {W : Type} (st e : ℚ × W) : ℚ × W :=
  if st.1 < e.1 then e else st

/-- The (best accuracy, best snapshot) pair after running all epochs,
starting from accuracy `0.0` and the initial weights (pt.py lines 276-277). -/
def train_best {W : Type} (init : W) (epochs : List (ℚ × W)) : ℚ × W :=
  epochs.foldl best_update (0, init)

/-- The first epoch achieving the maximal accuracy of the sequence (later
epochs with merely equal accuracy do not displace it, matching the strict
comparison in the code). -/
def first_argmax {W : Type} : List (ℚ × W) → Option (ℚ × W)
  | [] => none
  | e :: es =>
    match first_argmax es with
    | none => some e
    | some m => if e.1 < m.1 then some m else some e

/-! ### Training phase event trace (pt.py lines 282-318)

At the start of every training phase the code runs `optimizer.step()` then
`scheduler.step()`, before the batch loop; inside the batch loop it runs
`optimizer.zero_grad()`, the forward pass, and (training phase only)
`loss.backward()` then `optimizer.step()`. -/

inductive TrainEv where
  | optStep
  | schedStep
  | zeroGrad
  | forwardPass
  | backwardPass
deriving DecidableEq, Repr

/-- The events of `numBatches` iterations of the training-phase batch loop. -/
def train_batch_loop : Nat → List TrainEv
  | 0 => []
  | n + 1 =>
    .zeroGrad :: .forwardPass :: .backwardPass :: .optStep :: train_batch_loop n

/-- The full event trace of one training phase: the pre-loop
`optimizer.step()` and `scheduler.step()`, then the batch loop. -/
def train_phase_events (numBatches : Nat) : List TrainEv :=
  .optStep :: .schedStep :: train_batch_loop numBatches

/-- Per-batch loss (pt.py lines 304-311): Inception in the training phase
adds the auxiliary loss weighted by 0.4; every other case uses the primary
loss alone. -/
def batch_loss (is_inception : Bool) (phase : String) (primary aux : ℚ) : ℚ :=
  if is_inception = true ∧ phase = "train" then primary + (4 / 10) * aux
  else primary

/-! ### Per-phase epoch metrics (pt.py lines 290-291, 320-325) -/

/-- The per-batch statistics the loop accumulates: `loss.item()`,
`inputs.size(0)` and the number of correct predictions in the batch. -/
structure BatchStat where
  loss : ℚ
  size : Nat
  corrects : Nat
deriving DecidableEq, Repr

/-- `running_loss`: starts at `0.0`, adds `loss.item() * inputs.size(0)`
per batch. -/
def running_loss (batches : List BatchStat) : ℚ :=
  batches.foldl (fun acc b => acc + b.loss * (b.size : ℚ)) 0

/-- `running_corrects`: starts at `0`, adds the per-batch correct count. -/
def running_corrects (batches : List BatchStat) : Nat :=
  batches.foldl (fun acc b => acc + b.corrects) 0

/-- `epoch_loss = running_loss / dataset_sizes[phase]`. -/
def epoch_loss (batches : List BatchStat) (dataset_size : Nat) : ℚ :=
  running_loss batches / (dataset_size : ℚ)

/-- `epoch_acc = running_corrects.double() / dataset_sizes[phase]`. -/
def epoch_acc (batches : List BatchStat) (dataset_size : Nat) : ℚ :=
  (running_corrects batches : ℚ) / (dataset_size : ℚ)

/-! ### Transform resolution (pt.py lines 410-421 and `oneoffcoder.transform`) -/

/-- One 5-tuple of the repeatable transform CLI flag: phase, official
transform name, local name, order (−1 excludes the step), JSON parameters. -/
structure TransformSpec where
  phase : String
  kind : String
  name : String
  order : Int
  params : String
deriving DecidableEq, Repr

/-- A step of a resolved pipeline: the transform kind and its parameters. -/
structure TransformStep where
  kind : String
  params : String
deriving DecidableEq, Repr

/-- The per-phase transform dictionary with keys train, test and valid. -/
structure PhaseTransforms where
  train : List TransformStep
  test : List TransformStep
  valid : List TransformStep
deriving DecidableEq, Repr

/-- Modelled from the spec: `get_default_transforms` lives in
`oneoffcoder.transform`, which is not under `src/`.  Spec section 4.2 says the
default pipelines are phase-specific, with richer augmentation for train and
deterministic resize/crop for test and valid. -/
def get_default_transforms (input_size : Nat) : PhaseTransforms :=
  { train := [⟨"RandomResizedCrop", toString input_size⟩,
              ⟨"RandomHorizontalFlip", ""⟩, ⟨"ToTensor", ""⟩,
              ⟨"Normalize", "imagenet"⟩],
    test := [⟨"Resize", toString (input_size + 32)⟩,
             ⟨"CenterCrop", toString input_size⟩, ⟨"ToTensor", ""⟩,
             ⟨"Normalize", "imagenet"⟩],
    valid := [⟨"Resize", toString (input_size + 32)⟩,
              ⟨"CenterCrop", toString input_size⟩, ⟨"ToTensor", ""⟩,
              ⟨"Normalize", "imagenet"⟩] }

/-- Stable insertion into a list sorted by ascending `order`. -/
def insert_by_order (x : TransformSpec) :
    List TransformSpec → List TransformSpec
  | [] => [x]
  | t :: ts => if x.order ≤ t.order then x :: t :: ts else t :: insert_by_order x ts

/-- Stable sort by ascending `order` (Python `sorted` is stable). -/
def sort_by_order : List TransformSpec → List TransformSpec
  | [] => []
  | x :: xs => insert_by_order x (sort_by_order xs)

/-- The pipeline a phase receives from the user specifications: the steps
naming that phase, with order −1 dropped, sorted by ascending order. -/
def user_pipeline (specs : List TransformSpec) (ph : String) :
    List TransformStep :=
  (sort_by_order ((specs.filter (fun s => s.phase == ph)).filter
      (fun s => s.order != -1))).map (fun s => ⟨s.kind, s.params⟩)

/-- Modelled from the spec: `get_transforms` lives in
`oneoffcoder.transform`, which is not under `src/`.  Spec section 4.2 says the
supplied steps are grouped by phase, sorted by order ascending, and steps
with order −1 are dropped; a phase has an entry in the result exactly when
some supplied step names it. -/
def get_transforms (specs : List TransformSpec) (ph : String) :
    Option (List TransformStep) :=
  if (specs.filter (fun s => s.phase == ph)).isEmpty then none
  else some (user_pipeline specs ph)

/-- `get_data_transforms` from pt.py (lines 410-421): start from the
defaults; for each of the keys train, test, valid present in the parsed user
transforms, replace that phase entry wholesale. -/
def get_data_transforms (input_size : Nat)
    (args_transform : Option (List TransformSpec)) : PhaseTransforms :=
  let def_transforms := get_default_transforms input_size
  match args_transform with
  | none => def_transforms
  | some specs =>
    let d1 := match get_transforms specs "train" with
      | some p => { def_transforms with train := p }
      | none => def_transforms
    let d2 := match get_transforms specs "test" with
      | some p => { d1 with test := p }
      | none => d1
    match get_transforms specs "valid" with
      | some p => { d2 with valid := p }
      | none => d2

/-! ## Theorems -/

/-- C7: for every model-type name, the resolved input size is 299 exactly
when the name is `inception_v3`, and 224 for every other name. -/
theorem input_size_299_iff_inception (model_type : String) :
    (get_input_size model_type = 299 ∨ get_input_size model_type = 224) ∧
    (get_input_size model_type = 299 ↔ model_type = "inception_v3") := by
  by_cases h : model_type = "inception_v3" <;> simp [get_input_size, h]

/-- C3: evaluation at the failing input.  With `seed = 0` the run seeds from
the current time (here 1700000000000 ms past epoch) rather than with 0,
because the code tests `args.seed > 0`; negative and positive seeds behave
as documented. -/
theorem resolve_seed_zero_uses_time :
    resolve_seed 0 1700000000000 = 1700000000000 ∧
    resolve_seed 0 1700000000000 ≠ 0 ∧
    resolve_seed (-1) 1700000000000 = 1700000000000 ∧
    resolve_seed 7 1700000000000 = 7 :=
  ⟨rfl, by decide, rfl, rfl⟩

/-- C2: evaluation at the failing input.  For `resnext50_32x4d` the factory
reads `model.classifier[1]` although the torchvision ResNeXt keeps its head
at `fc` and has no `classifier` attribute, so model creation raises
`AttributeError` instead of producing a head of width 3; every other
supported architecture gets a final layer of width exactly 3. -/
theorem create_model_resnext50_head_error :
    create_model "resnext50_32x4d" 3 false true =
      .error "AttributeError: classifier" ∧
    ((supportedModels.filter (fun mt => mt != "resnext50_32x4d")).all
      (fun mt =>
        match create_model mt 3 false true with
        | .ok m => head_out_width mt m == some 3
        | .error _ => false)) = true := by
  exact ⟨rfl, by decide⟩

/-- Folding an accumulate-and-add loop equals adding the sum of the mapped
list to the initial accumulator. -/
lemma foldl_add_eq_add_sum {α M : Type} [AddCommMonoid M] (f : α → M)
    (l : List α) : ∀ init : M,
    l.foldl (fun acc b => acc + f b) init = init + (l.map f).sum := by
  induction l with
  | nil => intro init; simp
  | cons b bs ih => intro init; simp [ih, add_assoc]

/-- C8: the reported epoch loss is the batch-size-weighted loss sum divided
by the dataset size of the phase, and the reported epoch accuracy is the
total correct count divided by the dataset size of the phase. -/
theorem epoch_metrics_are_weighted_averages (batches : List BatchStat)
    (N : Nat) :
    epoch_loss batches N =
      (batches.map (fun b => b.loss * (b.size : ℚ))).sum / (N : ℚ) ∧
    epoch_acc batches N =
      (((batches.map (fun b => b.corrects)).sum : ℕ) : ℚ) / (N : ℚ) := by
  constructor
  · unfold epoch_loss running_loss
    rw [foldl_add_eq_add_sum (fun b => b.loss * (b.size : ℚ)) batches 0, zero_add]
  · unfold epoch_acc running_corrects
    rw [foldl_add_eq_add_sum (fun b => b.corrects) batches 0, zero_add]

/-- The best-snapshot fold is determined by the first maximal epoch: it
returns the first epoch whose accuracy strictly exceeds the starting
accuracy and is maximal, and the starting state otherwise. -/
lemma foldl_best_update_eq {W : Type} (es : List (ℚ × W)) :
    ∀ st : ℚ × W, es.foldl best_update st =
      (match first_argmax es with
       | none => st
       | some m => if st.1 < m.1 then m else st) := by
  induction es with
  | nil => intro st; rfl
  | cons e es ih =>
    intro st
    rw [List.foldl_cons, ih (best_update st e)]
    cases hfa : first_argmax es with
    | none => simp [first_argmax, hfa, best_update]
    | some m =>
      by_cases h1 : st.1 < e.1 <;> by_cases h2 : e.1 < m.1
      · simp [first_argmax, hfa, best_update, h1, h2, lt_trans h1 h2]
      · simp [first_argmax, hfa, best_update, h1, h2]
      · simp [first_argmax, hfa, best_update, h1, h2]
      · have h3 : ¬ st.1 < m.1 :=
          not_lt.mpr (le_trans (not_lt.mp h2) (not_lt.mp h1))
        simp [first_argmax, hfa, best_update, h1, h2, h3]

/-- C1 (amended): the snapshot is overwritten exactly when the test accuracy
strictly exceeds the best accuracy so far (which starts at 0), and the
returned weights are the snapshot of the earliest epoch achieving the
maximal test accuracy, provided that maximum strictly exceeds 0; epochs are
(test accuracy, end-of-epoch weights) pairs. -/
theorem train_model_returns_first_max_snapshot {W : Type} (init : W)
    (epochs : List (ℚ × W)) (m : ℚ × W)
    (hmax : first_argmax epochs = some m) (hpos : 0 < m.1) :
    (train_best init epochs).2 = m.2 ∧
    ∀ st e : ℚ × W,
      (st.1 < e.1 → best_update st e = e) ∧
      (¬ st.1 < e.1 → best_update st e = st) := by
  constructor
  · unfold train_best
    rw [foldl_best_update_eq epochs (0, init), hmax]
    simp [hpos]
  · intro st e
    exact ⟨fun h => by simp [best_update, h], fun h => by simp [best_update, h]⟩

/-- Witness for C1 on the epoch-accuracy sequence of the spec,
5, 7, 6, 9, 8 (tenths), with weight snapshots 0..4 and initial weights 99:
the returned weights are those of the epoch with accuracy 9. -/
theorem train_model_returns_first_max_snapshot_witness :
    first_argmax [((5 : ℚ), (0 : Nat)), (7, 1), (6, 2), (9, 3), (8, 4)] =
      some (9, 3) ∧
    (0 : ℚ) < 9 ∧
    (train_best 99 [((5 : ℚ), (0 : Nat)), (7, 1), (6, 2), (9, 3), (8, 4)]).2
      = 3 := by
  refine ⟨by decide, by norm_num, ?_⟩
  exact (train_model_returns_first_max_snapshot 99
    [((5 : ℚ), (0 : Nat)), (7, 1), (6, 2), (9, 3), (8, 4)] (9, 3)
    (by decide) (by norm_num)).1

/-- C1 counterexample: with a single epoch of test accuracy 0 (initial
weights 0, end-of-epoch weights 1), the maximal-accuracy epoch is that
epoch with snapshot 1, yet the loop returns the initial weights 0, because
accuracy 0 never strictly exceeds the starting best accuracy 0. -/
theorem train_model_zero_acc_keeps_initial_weights :
    first_argmax [((0 : ℚ), (1 : Nat))] = some (0, 1) ∧
    (train_best (0 : Nat) [((0 : ℚ), (1 : Nat))]).2 = 0 ∧
    (0 : Nat) ≠ 1 := by decide

/-- C10: for every architecture name outside the enumerated supported set,
the factory falls through to the Inception v3 branch and resizes both the
auxiliary and the primary head to the class count, while the resolved input
size is 224 (not 299), the model is treated as non-Inception, and therefore
the training-phase batch loss carries no auxiliary term. -/
theorem unknown_model_falls_back_to_inception (mt : String) (n : Nat)
    (fe pt : Bool) (h : mt ∉ supportedModels) :
    create_model mt n fe pt =
      .ok ⟨some (.linear 2048 n), none, some (.linear 768 n)⟩ ∧
    get_input_size mt = 224 ∧
    determine_inception mt = false ∧
    ∀ p a : ℚ, batch_loss (determine_inception mt) "train" p a = p := by
  simp only [supportedModels, List.mem_cons, List.mem_singleton, not_or] at h
  obtain ⟨h1, h2, h3, h4, h5, h6, h7, h8, h9, h10, h11, h12, h13, h14, h15,
    h16, h17, h18, h19, h20, h21, h22, h23, h24, h25, h26, h27, h28, h29,
    h30, h31⟩ := h
  refine ⟨?_, ?_, ?_, ?_⟩
  · simp only [create_model, if_neg h1, if_neg h2, if_neg h3, if_neg h4,
      if_neg h5, if_neg h6, if_neg h7, if_neg h8, if_neg h9, if_neg h10,
      if_neg h11, if_neg h12, if_neg h13, if_neg h14, if_neg h15, if_neg h16,
      if_neg h17, if_neg h18, if_neg h19, if_neg h20, if_neg h21, if_neg h22,
      if_neg h23, if_neg h24, if_neg h25, if_neg h26, if_neg h27, if_neg h28,
      if_neg h29, if_neg h30]
    rfl
  · simp [get_input_size, h31]
  · simp [determine_inception, h31]
  · intro p a
    simp [batch_loss, determine_inception, h31]

/-- Witness for C10 at the unsupported name `squeezenext`. -/
theorem unknown_model_falls_back_to_inception_witness :
    ("squeezenext" ∉ supportedModels) ∧
    (create_model "squeezenext" 5 false true =
       .ok ⟨some (.linear 2048 5), none, some (.linear 768 5)⟩ ∧
     get_input_size "squeezenext" = 224 ∧
     determine_inception "squeezenext" = false ∧
     batch_loss (determine_inception "squeezenext") "train" 3 7 = 3) := by
  have hmem : "squeezenext" ∉ supportedModels := by decide
  obtain ⟨ha, hb, hc, hd⟩ :=
    unknown_model_falls_back_to_inception "squeezenext" 5 false true hmem
  exact ⟨hmem, ha, hb, hc, hd 3 7⟩

/-- C4: a `None` or blank load path builds a fresh model directly; a
non-blank path attempts the load, and any load failure is caught locally
with the result being a fresh model built with the requested pretrained and
freeze settings, so the load error never escapes `get_model`; a successful
load returns the loaded model. -/
theorem get_model_recovers_load_failure (model_type : String) (n : Nat)
    (fe pt : Bool) (path : Option String)
    (lw : TVModel → Except String TVModel) :
    (path = none →
      get_model model_type n fe pt path lw = create_model model_type n fe pt) ∧
    (∀ p, path = some p → (py_strip p).length = 0 →
      get_model model_type n fe pt path lw = create_model model_type n fe pt) ∧
    (∀ p e, path = some p → (py_strip p).length ≠ 0 →
      load_model model_type n fe lw = .error e →
      get_model model_type n fe pt path lw = create_model model_type n fe pt) ∧
    (∀ p m, path = some p → (py_strip p).length ≠ 0 →
      load_model model_type n fe lw = .ok m →
      get_model model_type n fe pt path lw = .ok m) := by
  refine ⟨?_, ?_, ?_, ?_⟩
  · intro h; subst h; rfl
  · intro p h hp; subst h; simp [get_model, hp]
  · intro p e h hp hl; subst h; simp [get_model, hp, hl]
  · intro p m h hp hl; subst h; simp [get_model, hp, hl]

/-- Witness for C4: a failing weight load at a non-blank path falls back to
a fresh model with the requested settings. -/
theorem get_model_recovers_load_failure_witness :
    get_model "resnet18" 2 false true (some "/m.pth")
        (fun _ => Except.error "FileNotFoundError") =
      create_model "resnet18" 2 false true :=
  (get_model_recovers_load_failure "resnet18" 2 false true (some "/m.pth")
      (fun _ => Except.error "FileNotFoundError")).2.2.1
    "/m.pth" "FileNotFoundError" rfl (by decide) rfl

/-- The batch loop of a training phase contains no scheduler step. -/
lemma train_batch_loop_count_schedStep (n : Nat) :
    (train_batch_loop n).count TrainEv.schedStep = 0 := by
  induction n with
  | zero => rfl
  | succ k ih => simp [train_batch_loop, List.count_cons, ih]

/-- Every optimizer step inside the batch loop is immediately preceded by a
backward pass. -/
lemma train_batch_loop_optStep_after_backward (n : Nat) :
    ∀ i, (train_batch_loop n)[i]? = some TrainEv.optStep →
      0 < i ∧ (train_batch_loop n)[i - 1]? = some TrainEv.backwardPass := by
  induction n with
  | zero => intro i h; simp [train_batch_loop] at h
  | succ k ih =>
    intro i h
    rcases i with _ | _ | _ | _ | j
    · simp [train_batch_loop] at h
    · simp [train_batch_loop] at h
    · simp [train_batch_loop] at h
    · exact ⟨by norm_num, by simp [train_batch_loop]⟩
    · have hj : (train_batch_loop k)[j]? = some TrainEv.optStep := by
        simpa [train_batch_loop] using h
      obtain ⟨hpos, hb⟩ := ih j hj
      refine ⟨by omega, ?_⟩
      obtain ⟨j2, rfl⟩ : ∃ j2, j = j2 + 1 := ⟨j - 1, by omega⟩
      simpa [train_batch_loop] using hb

/-- C5: in every training phase the scheduler steps exactly once, at
position 1 of the phase trace, right after the phase-start optimizer step at
position 0 and before any batch event; no backward pass occurs before the
batch loop (so that optimizer step has no preceding backward pass), and
every later optimizer step is immediately preceded by a backward pass. -/
theorem scheduler_steps_once_before_batches (n : Nat) :
    (train_phase_events n).count TrainEv.schedStep = 1 ∧
    (train_phase_events n)[0]? = some TrainEv.optStep ∧
    (train_phase_events n)[1]? = some TrainEv.schedStep ∧
    (∀ i, (train_phase_events n)[i]? = some TrainEv.backwardPass → 2 ≤ i) ∧
    (∀ i, 0 < i → (train_phase_events n)[i]? = some TrainEv.optStep →
      (train_phase_events n)[i - 1]? = some TrainEv.backwardPass) := by
  refine ⟨?_, by simp [train_phase_events], by simp [train_phase_events], ?_, ?_⟩
  · simp [train_phase_events, List.count_cons, train_batch_loop_count_schedStep]
  · intro i h
    rcases i with _ | _ | j
    · simp [train_phase_events] at h
    · simp [train_phase_events] at h
    · omega
  · intro i hpos h
    rcases i with _ | _ | j
    · omega
    · simp [train_phase_events] at h
    · have hj : (train_batch_loop n)[j]? = some TrainEv.optStep := by
        simpa [train_phase_events] using h
      obtain ⟨hp, hb⟩ := train_batch_loop_optStep_after_backward n j hj
      obtain ⟨j2, rfl⟩ : ∃ j2, j = j2 + 1 := ⟨j - 1, by omega⟩
      simpa [train_phase_events] using hb

/-- Witness for C5 on a training phase with 2 batches: the optimizer step at
position 5 (end of the first batch) is immediately preceded by the backward
pass at position 4. -/
theorem scheduler_steps_once_before_batches_witness :
    (0 < 5 ∧ (train_phase_events 2)[5]? = some TrainEv.optStep) ∧
    (train_phase_events 2)[4]? = some TrainEv.backwardPass := by
  refine ⟨⟨by norm_num, by decide⟩, ?_⟩
  exact (scheduler_steps_once_before_batches 2).2.2.2.2 5 (by norm_num) (by decide)

/-- The parsed user transforms have no entry for a phase exactly when no
supplied specification names that phase. -/
lemma get_transforms_eq_none_iff (specs : List TransformSpec) (ph : String) :
    get_transforms specs ph = none ↔ ∀ s ∈ specs, s.phase ≠ ph := by
  constructor
  · intro hnone
    intro s hs hp
    unfold get_transforms at hnone
    have hmem : s ∈ specs.filter (fun t => t.phase == ph) :=
      List.mem_filter.mpr ⟨hs, by simpa using hp⟩
    rcases hfe : specs.filter (fun t => t.phase == ph) with _ | ⟨a, as⟩
    · rw [hfe] at hmem; simp at hmem
    · rw [hfe] at hnone; simp at hnone
  · intro hall
    unfold get_transforms
    have hf : specs.filter (fun t => t.phase == ph) = [] := by
      rcases hfe : specs.filter (fun t => t.phase == ph) with _ | ⟨a, as⟩
      · exact hfe
      · exfalso
        have ha : a ∈ specs.filter (fun t => t.phase == ph) := by
          rw [hfe]; exact List.mem_cons_self a as
        have hmf := List.mem_filter.mp ha
        exact hall a hmf.1 (by simpa using hmf.2)
    rw [hf]
    simp

/-- If some supplied specification names a phase, the parsed user transforms
map that phase to the sorted, minus-one-filtered user pipeline. -/
lemma get_transforms_eq_some_of_mem (specs : List TransformSpec) (ph : String)
    (h : ∃ s ∈ specs, s.phase = ph) :
    get_transforms specs ph = some (user_pipeline specs ph) := by
  unfold get_transforms
  obtain ⟨s, hs, hp⟩ := h
  have hmem : s ∈ specs.filter (fun t => t.phase == ph) :=
    List.mem_filter.mpr ⟨hs, by simpa using hp⟩
  rcases hfe : specs.filter (fun t => t.phase == ph) with _ | ⟨a, as⟩
  · rw [hfe] at hmem; simp at hmem
  · rw [hfe]; simp

/-- C6: every phase named in the user transform specifications has its
default pipeline fully replaced by the user-supplied list (sorted by order,
order −1 dropped, no merge with defaults), and every phase not named keeps
its default pipeline unchanged. -/
theorem transform_override_replaces_only_named_phases (input_size : Nat)
    (specs : List TransformSpec) :
    ((∃ s ∈ specs, s.phase = "train") →
      (get_data_transforms input_size (some specs)).train =
        user_pipeline specs "train") ∧
    ((∀ s ∈ specs, s.phase ≠ "train") →
      (get_data_transforms input_size (some specs)).train =
        (get_default_transforms input_size).train) ∧
    ((∃ s ∈ specs, s.phase = "test") →
      (get_data_transforms input_size (some specs)).test =
        user_pipeline specs "test") ∧
    ((∀ s ∈ specs, s.phase ≠ "test") →
      (get_data_transforms input_size (some specs)).test =
        (get_default_transforms input_size).test) ∧
    ((∃ s ∈ specs, s.phase = "valid") →
      (get_data_transforms input_size (some specs)).valid =
        user_pipeline specs "valid") ∧
    ((∀ s ∈ specs, s.phase ≠ "valid") →
      (get_data_transforms input_size (some specs)).valid =
        (get_default_transforms input_size).valid) := by
  refine ⟨?_, ?_, ?_, ?_, ?_, ?_⟩
  · intro hex
    have h1 := get_transforms_eq_some_of_mem specs "train" hex
    cases hte : get_transforms specs "test" <;>
      cases hva : get_transforms specs "valid" <;>
        simp [get_data_transforms, h1, hte, hva]
  · intro hall
    have h1 := (get_transforms_eq_none_iff specs "train").mpr hall
    cases hte : get_transforms specs "test" <;>
      cases hva : get_transforms specs "valid" <;>
        simp [get_data_transforms, h1, hte, hva]
  · intro hex
    have h2 := get_transforms_eq_some_of_mem specs "test" hex
    cases htr : get_transforms specs "train" <;>
      cases hva : get_transforms specs "valid" <;>
        simp [get_data_transforms, htr, h2, hva]
  · intro hall
    have h2 := (get_transforms_eq_none_iff specs "test").mpr hall
    cases htr : get_transforms specs "train" <;>
      cases hva : get_transforms specs "valid" <;>
        simp [get_data_transforms, htr, h2, hva]
  · intro hex
    have h3 := get_transforms_eq_some_of_mem specs "valid" hex
    cases htr : get_transforms specs "train" <;>
      cases hte : get_transforms specs "test" <;>
        simp [get_data_transforms, htr, hte, h3]
  · intro hall
    have h3 := (get_transforms_eq_none_iff specs "valid").mpr hall
    cases htr : get_transforms specs "train" <;>
      cases hte : get_transforms specs "test" <;>
        simp [get_data_transforms, htr, hte, h3]

/-- Witness for C6: overriding only the train phase replaces the train
pipeline and leaves the test and valid defaults unchanged. -/
theorem transform_override_replaces_only_named_phases_witness :
    (get_data_transforms 224 (some [⟨"train", "Resize", "r", 0, "224"⟩])).train
      = user_pipeline [⟨"train", "Resize", "r", 0, "224"⟩] "train" ∧
    (get_data_transforms 224 (some [⟨"train", "Resize", "r", 0, "224"⟩])).test
      = (get_default_transforms 224).test ∧
    (get_data_transforms 224 (some [⟨"train", "Resize", "r", 0, "224"⟩])).valid
      = (get_default_transforms 224).valid := by
  have h := transform_override_replaces_only_named_phases 224
    [⟨"train", "Resize", "r", 0, "224"⟩]
  exact ⟨h.1 (by decide), h.2.2.2.1 (by decide), h.2.2.2.2.2 (by decide)⟩

end PT
